import Mathlib

/-!
Verification development for `BayesianModel.py`.

The Python script is embedded shallowly:

* numeric data (numpy float arrays) is modelled by exact rationals `ℚ`;
  where a claim is about IEEE non-finite results (division by a zero
  label in MAPE) we additionally use `NpFloat`, a three-way model
  (finite rational / signed infinity / nan) whose finite arithmetic is
  exact and whose non-finite propagation follows IEEE-754, which is
  sound for "the result is not finite" statements because rounding
  never turns a non-finite value into a finite one;
* a pandas `DataFrame` is a header of column names plus a list of rows
  of cells (numbers or strings);
* Python object mutation (`category_to_int` assigning columns in
  place) is modelled by an explicit heap mapping references to frames;
* the pymc3 MAP optimiser and posterior-predictive sampler are
  impure/library calls and enter as explicit function parameters
  (`find_MAP`, `sample_ppc`); the script's structure around them is
  embedded exactly;
* a function that can raise is embedded in `Option`/`Except`.
-/

namespace BayesianModel

/-! ## Metric functions (script lines 69-77, sklearn metrics at line 180/202) -/

/-- `np.mean` of a rational list: sum divided by length (`0` on the empty
list stands in for numpy's degenerate empty-mean, which no claim hits). -/
def qMean (l : List ℚ) : ℚ := l.sum / (l.length : ℚ)

/-- `sklearn.metrics.mean_squared_error`: mean of squared differences. -/
def mean_squared_error (y_true y_pred : List ℚ) : ℚ :=
  qMean (List.zipWith (fun a b => (a - b) ^ 2) y_true y_pred)

/-- RMSE as computed at line 180: `np.sqrt(mean_squared_error(eval_y, pred_y))`. -/
noncomputable def rmse (y_true y_pred : List ℚ) : ℝ :=
  Real.sqrt ((mean_squared_error y_true y_pred : ℚ) : ℝ)

/-- `sklearn.metrics.mean_absolute_error`: mean of absolute differences. -/
def mean_absolute_error (y_true y_pred : List ℚ) : ℚ :=
  qMean (List.zipWith (fun a b => |a - b|) y_true y_pred)

/-- Line 77: `np.mean(np.abs((y_true - y_pred) / y_true)) * 100`, read with
exact rational arithmetic (valid on inputs whose labels are all nonzero). -/
def mean_absolute_percentage_error (y_true y_pred : List ℚ) : ℚ :=
  qMean (List.zipWith (fun t p => |(t - p) / t|) y_true y_pred) * 100

/-! ## Non-finite propagation model of the same MAPE expression

`NpFloat` keeps finite values exact and models numpy's `inf`/`nan`
results of dividing by zero; only the (non-)finiteness of the outcome
is claimed, and that survives the exact-finite abstraction. -/

/-- A numpy scalar: finite value, signed infinity (`true` = negative), or nan. -/
inductive NpFloat where
  | fin : ℚ → NpFloat
  | inf : Bool → NpFloat
  | nan : NpFloat
deriving DecidableEq

/-- Is the value finite? -/
def NpFloat.isFinite : NpFloat → Bool
  | fin _ => true
  | _ => false

/-- IEEE addition on the model (finite part exact). -/
def NpFloat.add : NpFloat → NpFloat → NpFloat
  | nan, _ => nan
  | _, nan => nan
  | fin a, fin b => fin (a + b)
  | inf s, fin _ => inf s
  | fin _, inf s => inf s
  | inf s, inf t => if s = t then inf s else nan

/-- IEEE division on the model: a nonzero finite over zero is a signed
infinity, zero over zero is nan. -/
def NpFloat.div : NpFloat → NpFloat → NpFloat
  | nan, _ => nan
  | _, nan => nan
  | fin a, fin b =>
      if b = 0 then (if a = 0 then nan else inf (decide (a < 0)))
      else fin (a / b)
  | inf s, fin b => inf (xor s (decide (b < 0)))
  | fin _, inf _ => fin 0
  | inf _, inf _ => nan

/-- IEEE multiplication on the model. -/
def NpFloat.mul : NpFloat → NpFloat → NpFloat
  | nan, _ => nan
  | _, nan => nan
  | fin a, fin b => fin (a * b)
  | inf s, fin b => if b = 0 then nan else inf (xor s (decide (b < 0)))
  | fin a, inf s => if a = 0 then nan else inf (xor s (decide (a < 0)))
  | inf s, inf t => inf (xor s t)

/-- `np.abs` on the model. -/
def NpFloat.nabs : NpFloat → NpFloat
  | fin a => fin |a|
  | inf _ => inf false
  | nan => nan

/-- Sum of a list of numpy scalars. -/
def NpFloat.sumL (l : List NpFloat) : NpFloat := l.foldr NpFloat.add (NpFloat.fin 0)

/-- `np.mean` on the model: sum over length. -/
def NpFloat.meanL (l : List NpFloat) : NpFloat :=
  NpFloat.div (NpFloat.sumL l) (NpFloat.fin (l.length : ℚ))

/-- Line 77 again, now with numpy's division semantics kept:
`np.mean(np.abs((y_true - y_pred) / y_true)) * 100` where the inputs are
finite data vectors. -/
def mapeNp (y_true y_pred : List ℚ) : NpFloat :=
  NpFloat.mul
    (NpFloat.meanL
      ((List.zipWith
          (fun t p => NpFloat.div (NpFloat.fin (t - p)) (NpFloat.fin t))
          y_true y_pred).map NpFloat.nabs))
    (NpFloat.fin 100)

/-! ## BayesianRBFRegression (script lines 26-66) -/

/-- A point in hyperparameter space: length-scale, amplitude, noise
(the variables `ℓ`, `η`, `σ` of `fit`). -/
structure Hyper where
  l : ℚ
  eta : ℚ
  sigma : ℚ
deriving DecidableEq

/-- What `fit` stores on `self`: the MAP trace (a singleton list, line 48)
together with the training data captured by the pymc3 model context. -/
structure TrainedState where
  map_trace : List Hyper
  X : List (List ℚ)
  y : List ℚ

/-- The model object. A freshly constructed instance has no `model`
attribute (`model := none`); `fit` sets it. `hasattr(self, 'model')`
is `model.isSome`. -/
structure BayesianRBFRegression where
  model : Option TrainedState

/-- `fit` (lines 28-48): builds the GP model and stores
`self.map_trace = [pm.find_MAP()]`. The MAP optimiser is a parameter. -/
def BayesianRBFRegression.fit
    (find_MAP : List (List ℚ) → List ℚ → Hyper)
    (X : List (List ℚ)) (y : List ℚ) : BayesianRBFRegression :=
  { model := some { map_trace := [find_MAP X y], X := X, y := y } }

/-- Per-point mean of a sample matrix (samples are rows): `.mean(axis=0)`. -/
def colMean (samples : List (List ℚ)) : List ℚ :=
  samples.transpose.map qMean

/-- Population variance of a list, as used by `np.std` (ddof = 0). -/
def qVar (l : List ℚ) : ℚ :=
  qMean (l.map (fun x => (x - qMean l) ^ 2))

/-- Per-point standard deviation of a sample matrix: `.std(axis=0)`. -/
noncomputable def colStd (samples : List (List ℚ)) : List ℝ :=
  samples.transpose.map (fun l => Real.sqrt ((qVar l : ℚ) : ℝ))

/-- `predict` (lines 50-66). The posterior-predictive sampler
(`pm.sample_ppc` on the conditional GP) is a parameter receiving the
trained state, the new inputs, and the requested number of samples.
Raising `AttributeError("train the model first")` is the error case;
the result pairs the prediction with the optional scaled uncertainty. -/
noncomputable def BayesianRBFRegression.predict
    (sample_ppc : TrainedState → List (List ℚ) → Nat → List (List ℚ))
    (self : BayesianRBFRegression) (X : List (List ℚ)) (with_error : Bool) :
    Except String (List ℚ × Option (List ℝ)) :=
  match self.model with
  | none => Except.error "train the model first"
  | some st =>
      let pred_samples := sample_ppc st X 2000
      let y_pred := colMean pred_samples
      let uncer := colStd pred_samples
      if with_error then Except.ok (y_pred, some (uncer.map (fun u => u / 1000)))
      else Except.ok (y_pred, none)

/-! ## DataFrames, `category_to_int`, the scaler, and `read_csv`
(script lines 80-164) -/

/-- A pandas cell: a number or a string. -/
inductive Cell where
  | num : ℚ → Cell
  | str : String → Cell
deriving DecidableEq

/-- A pandas DataFrame: column names plus rows of cells. -/
structure DataFrame where
  header : List String
  rows : List (List Cell)
deriving DecidableEq

/-- Position of a named column (`None` models pandas' `KeyError`). -/
def DataFrame.colIdx (df : DataFrame) (name : String) : Option Nat :=
  df.header.findIdx? (fun s => s == name)

/-- Ordering pandas uses for category levels: sorted unique values
(numbers before strings, each kind in its natural order). -/
def cellLeB : Cell → Cell → Bool
  | Cell.num a, Cell.num b => decide (a ≤ b)
  | Cell.num _, Cell.str _ => true
  | Cell.str _, Cell.num _ => false
  | Cell.str a, Cell.str b => decide (a < b) || decide (a = b)

/-- The category levels of a column: its distinct values in sorted order
(what `.astype('category')` computes). -/
def categories (col : List Cell) : List Cell :=
  col.dedup.insertionSort (fun a b => cellLeB a b = true)

/-- Replace column `j` of the rows by the integer category codes of its
values (`.cat.codes`: the index of the value among the sorted levels). -/
def encodeColumn (rows : List (List Cell)) (j : Nat) : List (List Cell) :=
  let col := rows.map (fun r => r.getD j (Cell.num 0))
  let cats := categories col
  rows.map (fun r =>
    r.set j (Cell.num ((cats.indexOf (r.getD j (Cell.num 0)) : ℕ) : ℚ)))

/-- The frame-level effect of `category_to_int` (lines 80-92): each listed
column is converted to a category dtype and then replaced by its codes;
a missing column name is pandas' `KeyError`. -/
def categoryToIntFrame (df : DataFrame) (columns : List String) : Option DataFrame := do
  let idxs ← columns.mapM df.colIdx
  pure { header := df.header, rows := idxs.foldl encodeColumn df.rows }

/-- Python references to DataFrame objects: a heap of frames. -/
def Heap := Nat → DataFrame

/-- Overwrite the frame a reference points to. -/
def updateHeap (h : Heap) (r : Nat) (d : DataFrame) : Heap :=
  fun s => if s = r then d else h s

/-- `category_to_int(df, columns)` (lines 80-92) at the object level: it
assigns into the frame behind the reference it was given (in-place column
assignment) and returns that same reference. -/
def category_to_int (h : Heap) (r : Nat) (columns : List String) :
    Option (Heap × Nat) :=
  (categoryToIntFrame (h r) columns).map (fun d => (updateHeap h r d, r))

/-- Fitted `MinMaxScaler` state: per-column data minima and maxima. -/
structure ScalerState where
  data_min_ : List ℚ
  data_max_ : List ℚ
deriving DecidableEq

/-- A `MinMaxScaler(feature_range=(0, 1))`; `hasattr(scaler, "data_max_")`
is `fitted.isSome`. -/
structure MinMaxScaler where
  fitted : Option ScalerState
deriving DecidableEq

/-- Minimum of a column (scaler is never fit on an empty frame in the claims). -/
def colMin : List ℚ → ℚ
  | [] => 0
  | x :: xs => xs.foldl min x

/-- Maximum of a column. -/
def colMax : List ℚ → ℚ
  | [] => 0
  | x :: xs => xs.foldl max x

/-- `MinMaxScaler.fit`: record per-column minima and maxima. -/
def MinMaxScaler.fitState (X : List (List ℚ)) : ScalerState :=
  { data_min_ := X.transpose.map colMin, data_max_ := X.transpose.map colMax }

/-- sklearn's `_handle_zeros_in_scale`: a zero range scales by 1. -/
def scaleDen (r : ℚ) : ℚ := if r = 0 then 1 else r

/-- `MinMaxScaler.transform` with range (0, 1):
column-wise `(x - data_min_) / (data_max_ - data_min_)`. -/
def MinMaxScaler.transform (st : ScalerState) (X : List (List ℚ)) : List (List ℚ) :=
  X.map (fun row =>
    List.zipWith (fun x mM => (x - mM.1) / scaleDen (mM.2 - mM.1))
      row (st.data_min_.zip st.data_max_))

/-- Lines 116-120 (and the two copies): fit the scaler only when it has no
`data_max_` attribute yet, then transform; returns the post-call scaler. -/
def scaleStep (scaler : MinMaxScaler) (X : List (List ℚ)) :
    MinMaxScaler × List (List ℚ) :=
  match scaler.fitted with
  | none =>
      let st := MinMaxScaler.fitState X
      (⟨some st⟩, MinMaxScaler.transform st X)
  | some st => (scaler, MinMaxScaler.transform st X)

/-- `df.loc[df[name] < thr]`: keep the rows whose cell in the named column
is a number below the threshold (pandas drops non-comparable rows). -/
def filterErr (df : DataFrame) (name : String) (thr : ℚ) : Option DataFrame := do
  let j ← df.colIdx name
  pure { header := df.header,
         rows := df.rows.filter (fun r =>
           match r.getD j (Cell.num 0) with
           | Cell.num q => decide (q < thr)
           | Cell.str _ => false) }

/-- `df.iloc[:, idxs]`: select columns by position. -/
def selectCols (rows : List (List Cell)) (idxs : List Nat) : List (List Cell) :=
  rows.map (fun r => idxs.map (fun j => r.getD j (Cell.num 0)))

/-- Read a cell as a number (`None` models the numeric-dtype requirement of
the scaler / label arithmetic). -/
def cellToQ : Cell → Option ℚ
  | Cell.num q => some q
  | Cell.str _ => none

/-- Numeric conversion of a selected block of cells. -/
def toNumMatrix (rows : List (List Cell)) : Option (List (List ℚ)) :=
  rows.mapM (fun r => r.mapM cellToQ)

/-- Parse a nonempty all-digit character list as a natural number. -/
def digitsToNat? (cs : List Char) : Option Nat :=
  if cs ≠ [] ∧ cs.all (fun c => c.isDigit) then
    some (cs.foldl (fun n c => 10 * n + (c.toNat - Char.toNat '0')) 0)
  else none

/-- Line 152: `pd.to_numeric(df['heap'].str.replace(r'[a-z]+', ''),
errors='coerce')` on one cell: strip lowercase letters and parse; a value
that still fails to parse coerces to NaN, which no claim observes and which
is represented by 0 here. -/
def cleanHeapCell : Cell → Cell
  | Cell.str s =>
      match digitsToNat? (s.data.filter (fun c => !c.isLower)) with
      | some n => Cell.num (n : ℚ)
      | none => Cell.num 0
  | Cell.num q => Cell.num q

/-- Line 152 applied to the `heap` column. -/
def cleanHeapCol (df : DataFrame) : Option DataFrame := do
  let j ← df.colIdx "heap"
  pure { header := df.header,
         rows := df.rows.map (fun r => r.set j (cleanHeapCell (r.getD j (Cell.num 0)))) }

/-- The common tail of each `read_csv` branch: select the feature and label
columns by position, fit-or-reuse the scaler and transform the features,
flatten the labels (`y.values.flatten()`), and return the branch's seed. -/
def loadBranch (df : DataFrame) (fIdx lIdx : List Nat) (seed : Nat)
    (scaler : MinMaxScaler) :
    Option (List (List ℚ) × List ℚ × Nat × MinMaxScaler) := do
  let X ← toNumMatrix (selectCols df.rows fIdx)
  let y ← toNumMatrix (selectCols df.rows lIdx)
  let p := scaleStep scaler X
  pure (p.2, y.flatten, seed, p.1)

/-- `read_csv(path, scaler)` (lines 95-164). The file system is the
parameter `csvData` (what `pd.read_csv` returns for a path). Each branch
filters by its error column, encodes its categorical columns, and loads
with its hard-coded column positions and seed. Note the APIM branch keeps
the source's actual selections: `X = df.iloc[:, 23]` (the column the
source comments call the latency column) and
`y = df.iloc[:, [0, 1, 2, 3]]`, flattened. An unrecognized path returns
`none` (the Python function falls through and returns `None`). -/
def read_csv (csvData : String → DataFrame) (path : String)
    (scaler : MinMaxScaler) :
    Option (List (List ℚ) × List ℚ × Nat × MinMaxScaler) :=
  let df0 := csvData path
  if path = "Datasets/APIM_Dataset.csv" then do
    let df1 ← filterErr df0 "Error %" 5
    let df2 ← categoryToIntFrame df1 ["Name"]
    loadBranch df2 [23] [0, 1, 2, 3] 42 scaler
  else if path = "Datasets/Ballerina_Dataset.csv" then do
    let df1 ← filterErr df0 "Error %" 5
    let df2 ← categoryToIntFrame df1 ["Name"]
    loadBranch df2 [1, 3, 4, 5] [9] 65 scaler
  else if path = "Datasets/Springboot_Dataset.csv" then do
    let df1 ← filterErr df0 "error_rate" 5
    let df2 ← categoryToIntFrame df1 ["use case"]
    let df3 ← categoryToIntFrame df2 ["collector"]
    let df4 ← cleanHeapCol df3
    loadBranch df4 [0, 1, 2, 3, 4] [5] 42 scaler
  else none

/-! ## The cross-validation driver (script lines 183-206) -/

/-- sklearn `KFold(n_splits=k, shuffle=False)` fold sizes: each of size
`n // k`, the first `n % k` of them one larger. -/
def foldSizes (n k : Nat) : List Nat :=
  (List.range k).map (fun i => n / k + if i < n % k then 1 else 0)

/-- Cut `[start, start + sizes.sum)` into consecutive blocks of the given
sizes: the test-index blocks of `KFold` without shuffling. -/
def makeFolds : Nat → List Nat → List (List Nat)
  | _, [] => []
  | start, s :: rest => List.range' start s :: makeFolds (start + s) rest

/-- The `k` held-out test-index blocks `kf.split` yields for `n` samples. -/
def kfoldTestIndices (n k : Nat) : List (List Nat) :=
  makeFolds 0 (foldSizes n k)

/-- Line 195: `shuffle(_X, _y, random_state=seed)` — both arrays are
reindexed by the one permutation `perm seed n` that the seeded RNG
produces for `n = len(X)` rows. -/
def shuffleData (perm : Nat → Nat → List Nat) (seed : Nat)
    (X : List (List ℚ)) (y : List ℚ) : List (List ℚ) × List ℚ :=
  ((perm seed X.length).map (fun i => X.getD i []),
   (perm seed X.length).map (fun i => y.getD i 0))

/-! ## Concrete tables for the three schemas, used to evaluate `read_csv` -/

/-- A minimal APIM-shaped table: 24 columns (`iloc` positions 0-23), with
`Name` at 0, `Error %` at 22 and the latency column at 23; one row that
passes the error filter. -/
def apimDf : DataFrame :=
  { header := ["Name", "c1", "c2", "c3", "c4", "c5", "c6", "c7", "c8", "c9",
               "c10", "c11", "c12", "c13", "c14", "c15", "c16", "c17", "c18",
               "c19", "c20", "c21", "Error %", "latency"],
    rows := [[Cell.str "a", Cell.num 1, Cell.num 2, Cell.num 3, Cell.num 0,
              Cell.num 0, Cell.num 0, Cell.num 0, Cell.num 0, Cell.num 0,
              Cell.num 0, Cell.num 0, Cell.num 0, Cell.num 0, Cell.num 0,
              Cell.num 0, Cell.num 0, Cell.num 0, Cell.num 0, Cell.num 0,
              Cell.num 0, Cell.num 0, Cell.num 1, Cell.num 7]] }

/-- A minimal Ballerina-shaped table: features at positions 1, 3, 4, 5,
label (latency) at 9, `Error %` at 10. -/
def ballDf : DataFrame :=
  { header := ["Name", "f1", "x2", "f3", "f4", "f5", "x6", "x7", "x8",
               "latency", "Error %"],
    rows := [[Cell.str "a", Cell.num 1, Cell.num 0, Cell.num 2, Cell.num 3,
              Cell.num 4, Cell.num 0, Cell.num 0, Cell.num 0, Cell.num 9,
              Cell.num 1]] }

/-- A minimal Springboot-shaped table: features at positions 0-4 (including
the categorical `use case` and `collector` and the textual `heap` sizes),
label (latency) at 5, `error_rate` at 6. -/
def springDf : DataFrame :=
  { header := ["use case", "collector", "heap", "c3", "c4", "latency",
               "error_rate"],
    rows := [[Cell.str "uc", Cell.str "g1", Cell.str "512m", Cell.num 1,
              Cell.num 2, Cell.num 9, Cell.num 0]] }

/-- A file system serving each recognized path its concrete table. -/
def csvEnv : String → DataFrame := fun p =>
  if p = "Datasets/APIM_Dataset.csv" then apimDf
  else if p = "Datasets/Ballerina_Dataset.csv" then ballDf
  else springDf

/-- A scaler state already fit for the four Ballerina feature columns. -/
def preFitSt : ScalerState :=
  { data_min_ := [0, 0, 0, 0], data_max_ := [8, 8, 8, 8] }

/-- A 10-row feature matrix used to instantiate the CV driver claims. -/
def cvX : List (List ℚ) := [[0], [1], [2], [3], [4], [5], [6], [7], [8], [9]]

/-- Labels for `cvX`. -/
def cvY : List ℚ := [0, 1, 2, 3, 4, 5, 6, 7, 8, 9]

/-- A concrete permutation function standing in for numpy's seeded RNG. -/
def idPerm : Nat → Nat → List Nat := fun _ n => List.range n

/-- A heap whose every reference holds the Ballerina table. -/
def nameHeap : Heap := fun _ => ballDf

/-- The Ballerina table after `category_to_int(df, ["Name"])`: the single
`Name` value gets category code 0. -/
def ballDfEncoded : DataFrame :=
  { header := ballDf.header,
    rows := [[Cell.num 0, Cell.num 1, Cell.num 0, Cell.num 2, Cell.num 3,
              Cell.num 4, Cell.num 0, Cell.num 0, Cell.num 0, Cell.num 9,
              Cell.num 1]] }

/-- `read_csv` output for the APIM table and a fresh scaler. -/
def apimTuple : List (List ℚ) × List ℚ × Nat × MinMaxScaler :=
  (MinMaxScaler.transform (MinMaxScaler.fitState [[7]]) [[7]], [0, 1, 2, 3], 42,
    ⟨some (MinMaxScaler.fitState [[7]])⟩)

/-- `read_csv` output for the Ballerina table and a fresh scaler. -/
def ballTuple : List (List ℚ) × List ℚ × Nat × MinMaxScaler :=
  (MinMaxScaler.transform (MinMaxScaler.fitState [[1, 2, 3, 4]]) [[1, 2, 3, 4]], [9], 65,
    ⟨some (MinMaxScaler.fitState [[1, 2, 3, 4]])⟩)

/-- `read_csv` output for the Springboot table and a fresh scaler. -/
def springTuple : List (List ℚ) × List ℚ × Nat × MinMaxScaler :=
  (MinMaxScaler.transform (MinMaxScaler.fitState [[0, 0, 512, 1, 2]]) [[0, 0, 512, 1, 2]],
    [9], 42, ⟨some (MinMaxScaler.fitState [[0, 0, 512, 1, 2]])⟩)

/-- `read_csv` output for the Ballerina table and the pre-fit scaler. -/
def ballPreTuple : List (List ℚ) × List ℚ × Nat × MinMaxScaler :=
  (MinMaxScaler.transform preFitSt [[1, 2, 3, 4]], [9], 65, ⟨some preFitSt⟩)

/-! ## Helper lemmas -/

theorem zipWith_self_replicate (f : ℚ → ℚ → ℚ) (hf : ∀ x, f x x = 0) :
    ∀ a : List ℚ, List.zipWith f a a = List.replicate a.length 0 := by
  intro a
  induction a with
  | nil => rfl
  | cons x xs ih =>
      rw [List.zipWith_cons_cons, hf x, ih, List.length_cons, List.replicate_succ]

theorem qMean_replicate_zero (n : ℕ) : qMean (List.replicate n 0) = 0 := by
  simp [qMean]

theorem NpFloat.add_finite (x y : NpFloat) :
    (NpFloat.add x y).isFinite = true → x.isFinite = true ∧ y.isFinite = true := by
  cases x with
  | nan => simp [NpFloat.add, NpFloat.isFinite]
  | fin a => cases y <;> simp [NpFloat.add, NpFloat.isFinite]
  | inf s =>
      cases y with
      | nan => simp [NpFloat.add, NpFloat.isFinite]
      | fin b => simp [NpFloat.add, NpFloat.isFinite]
      | inf t => by_cases h : s = t <;> simp [NpFloat.add, NpFloat.isFinite, h]

theorem NpFloat.sumL_finite (l : List NpFloat) (x : NpFloat) (hx : x ∈ l) :
    (NpFloat.sumL l).isFinite = true → x.isFinite = true := by
  induction l with
  | nil => cases hx
  | cons a l ih =>
    intro h
    have h' : (NpFloat.add a (NpFloat.sumL l)).isFinite = true := h
    rcases NpFloat.add_finite _ _ h' with ⟨h1, h2⟩
    rcases List.mem_cons.mp hx with rfl | hx'
    · exact h1
    · exact ih hx' h2

theorem NpFloat.div_fin_finite (x : NpFloat) (q : ℚ) :
    (NpFloat.div x (NpFloat.fin q)).isFinite = true → x.isFinite = true := by
  cases x <;>
    (try simp only [NpFloat.div, NpFloat.isFinite]) <;>
    (try split) <;>
    (try split) <;>
    simp [NpFloat.isFinite]

theorem NpFloat.mul_fin_finite (x : NpFloat) (q : ℚ) (hq : q ≠ 0) :
    (NpFloat.mul x (NpFloat.fin q)).isFinite = true → x.isFinite = true := by
  cases x <;>
    (try simp only [NpFloat.mul, NpFloat.isFinite]) <;>
    simp [NpFloat.isFinite, hq]

theorem NpFloat.nabs_isFinite (x : NpFloat) :
    (NpFloat.nabs x).isFinite = x.isFinite := by
  cases x <;> rfl

theorem NpFloat.div_fin_zero_nonfinite (a : ℚ) :
    (NpFloat.div (NpFloat.fin a) (NpFloat.fin 0)).isFinite = false := by
  by_cases h : a = 0 <;> simp [NpFloat.div, h, NpFloat.isFinite]

/-! ## Claim theorems: the metric functions -/

/-- C4: for every non-empty numeric sequence `a`, `RMSE(a, a) = 0` and
`MAE(a, a) = 0`, and `MAPE(a, a) = 0` whenever no element of `a` is zero. -/
theorem metrics_self_zero (a : List ℚ) (ha : a ≠ []) :
    rmse a a = 0 ∧ mean_absolute_error a a = 0 ∧
      ((∀ x ∈ a, x ≠ 0) → mean_absolute_percentage_error a a = 0) := by
  have hm : ∀ f : ℚ → ℚ → ℚ, (∀ x, f x x = 0) →
      qMean (List.zipWith f a a) = 0 := by
    intro f hf
    rw [zipWith_self_replicate f hf, qMean_replicate_zero]
  refine ⟨?_, ?_, fun _ => ?_⟩
  · rw [rmse, mean_squared_error, hm _ (fun x => by ring)]
    simp [Real.sqrt_zero]
  · rw [mean_absolute_error, hm _ (fun x => by simp)]
  · rw [mean_absolute_percentage_error, hm _ (fun x => by simp), zero_mul]

/-- Witness for C4 at `a = [1, 2]`. -/
theorem metrics_self_zero_witness :
    ([1, 2] : List ℚ) ≠ [] ∧
      (rmse [1, 2] [1, 2] = 0 ∧ mean_absolute_error [1, 2] [1, 2] = 0 ∧
        ((∀ x ∈ ([1, 2] : List ℚ), x ≠ 0) →
          mean_absolute_percentage_error [1, 2] [1, 2] = 0)) :=
  ⟨by decide, metrics_self_zero [1, 2] (by decide)⟩

/-- C5: MAPE is invariant under scaling both sequences by a positive
constant `c` (labels nonzero, equal lengths). -/
theorem mape_scale_invariant (c : ℚ) (hc : 0 < c) (y_true y_pred : List ℚ)
    (hlen : y_true.length = y_pred.length) (hz : ∀ x ∈ y_true, x ≠ 0) :
    mean_absolute_percentage_error
        (y_true.map (fun x => c * x)) (y_pred.map (fun x => c * x)) =
      mean_absolute_percentage_error y_true y_pred := by
  unfold mean_absolute_percentage_error
  rw [List.zipWith_map]
  have hfun : (fun a b : ℚ => |(c * a - c * b) / (c * a)|) =
      fun a b : ℚ => |(a - b) / a| := by
    funext t p
    rw [← mul_sub, mul_div_mul_left _ _ (ne_of_gt hc)]
  rw [hfun]

/-- Witness for C5 at `c = 2`, `y_true = [1]`, `y_pred = [3]`. -/
theorem mape_scale_invariant_witness :
    (0 : ℚ) < 2 ∧ ([1] : List ℚ).length = ([3] : List ℚ).length ∧
      (∀ x ∈ ([1] : List ℚ), x ≠ 0) ∧
      mean_absolute_percentage_error
          (([1] : List ℚ).map (fun x => 2 * x)) (([3] : List ℚ).map (fun x => 2 * x)) =
        mean_absolute_percentage_error [1] [3] :=
  ⟨by decide, rfl, by decide, mape_scale_invariant 2 (by decide) [1] [3] rfl (by decide)⟩

/-- C6: whenever some label is zero (equal-length inputs), the MAPE
computation divides by zero and its value is not finite (numpy returns
inf or nan); the division is not guarded. -/
theorem mape_zero_label_nonfinite (y_true y_pred : List ℚ)
    (hlen : y_true.length = y_pred.length) (h0 : (0 : ℚ) ∈ y_true) :
    (mapeNp y_true y_pred).isFinite = false := by
  obtain ⟨i, hi, hti⟩ := List.mem_iff_getElem.mp h0
  have hilen : i <
      (List.zipWith (fun t p => NpFloat.div (NpFloat.fin (t - p)) (NpFloat.fin t))
        y_true y_pred).length := by
    rw [List.length_zipWith]
    omega
  have hnf : ((List.zipWith
      (fun t p => NpFloat.div (NpFloat.fin (t - p)) (NpFloat.fin t))
      y_true y_pred)[i]).isFinite = false := by
    rw [List.getElem_zipWith, hti]
    exact NpFloat.div_fin_zero_nonfinite _
  have hmem := List.getElem_mem hilen
  cases hfin : (mapeNp y_true y_pred).isFinite with
  | false => rfl
  | true =>
    exfalso
    have h1 := NpFloat.mul_fin_finite _ 100 (by norm_num) hfin
    have h2 := NpFloat.div_fin_finite _ _ h1
    have h3 := NpFloat.sumL_finite _ _ (List.mem_map_of_mem NpFloat.nabs hmem) h2
    rw [NpFloat.nabs_isFinite, hnf] at h3
    exact Bool.false_ne_true h3

/-- Witness for C6 at `y_true = [0]`, `y_pred = [1]`. -/
theorem mape_zero_label_nonfinite_witness :
    ([0] : List ℚ).length = ([1] : List ℚ).length ∧ (0 : ℚ) ∈ ([0] : List ℚ) ∧
      (mapeNp [0] [1]).isFinite = false :=
  ⟨rfl, by decide, mape_zero_label_nonfinite [0] [1] rfl (by decide)⟩

/-! ## Claim theorems: the model class -/

/-- C3: `predict` on a freshly constructed instance (no `model` attribute)
raises the "train the model first" error for every input; after `fit` has
run, that error branch is never taken. -/
theorem predict_untrained_errors_trained_ok :
    (∀ (sample_ppc : TrainedState → List (List ℚ) → Nat → List (List ℚ))
        (X : List (List ℚ)) (we : Bool),
      BayesianRBFRegression.predict sample_ppc ⟨none⟩ X we =
        Except.error "train the model first") ∧
    (∀ (sample_ppc : TrainedState → List (List ℚ) → Nat → List (List ℚ))
        (find_MAP : List (List ℚ) → List ℚ → Hyper)
        (X0 : List (List ℚ)) (y0 : List ℚ) (X : List (List ℚ)) (we : Bool),
      BayesianRBFRegression.predict sample_ppc
          (BayesianRBFRegression.fit find_MAP X0 y0) X we ≠
        Except.error "train the model first") := by
  constructor
  · intro sample_ppc X we
    rfl
  · intro sample_ppc find_MAP X0 y0 X we
    cases we <;>
      simp [BayesianRBFRegression.predict, BayesianRBFRegression.fit]

/-- C7: on a fitted model, `predict` draws exactly 2000 posterior
predictive samples and returns their per-point mean; with `with_error`
it additionally returns the per-point standard deviation divided by 1000,
without it only the mean. -/
theorem predict_mean_and_scaled_std
    (sample_ppc : TrainedState → List (List ℚ) → Nat → List (List ℚ))
    (st : TrainedState) (X : List (List ℚ)) :
    BayesianRBFRegression.predict sample_ppc ⟨some st⟩ X true =
      Except.ok (colMean (sample_ppc st X 2000),
        some ((colStd (sample_ppc st X 2000)).map (fun u => u / 1000))) ∧
    BayesianRBFRegression.predict sample_ppc ⟨some st⟩ X false =
      Except.ok (colMean (sample_ppc st X 2000), none) := by
  constructor <;> rfl

/-! ## Helper lemmas: the fold partition -/

theorem makeFolds_length (start : Nat) (l : List Nat) :
    (makeFolds start l).length = l.length := by
  induction l generalizing start with
  | nil => rfl
  | cons s rest ih => simp [makeFolds, ih]

theorem makeFolds_flatten (start : Nat) (l : List Nat) :
    (makeFolds start l).flatten = List.range' start l.sum := by
  induction l generalizing start with
  | nil => rfl
  | cons s rest ih =>
      rw [makeFolds, List.flatten_cons, ih, List.sum_cons]
      have h := List.range'_append start s rest.sum 1
      rw [one_mul] at h
      rw [h, Nat.add_comm]

theorem sum_range_ite (q m : Nat) :
    ∀ k, ((List.range k).map (fun i => q + if i < m then 1 else 0)).sum
      = k * q + min m k := by
  intro k
  induction k with
  | zero => simp
  | succ k ih =>
      rw [List.range_succ, List.map_append, List.sum_append, ih]
      by_cases h : k < m <;> simp [h, Nat.succ_mul] <;> omega

theorem sum_foldSizes (n k : Nat) (hk : 0 < k) : (foldSizes n k).sum = n := by
  unfold foldSizes
  rw [sum_range_ite, min_eq_left (le_of_lt (Nat.mod_lt n hk))]
  exact Nat.div_add_mod n k

theorem makeFolds_contiguous (start : Nat) (l : List Nat) :
    ∀ f ∈ makeFolds start l, ∃ s k, f = List.range' s k := by
  induction l generalizing start with
  | nil => intro f hf; cases hf
  | cons s rest ih =>
      intro f hf
      rcases List.mem_cons.mp hf with rfl | hf'
      · exact ⟨start, s, rfl⟩
      · exact ih _ f hf'

theorem kfold_flatten_range (n : Nat) :
    (kfoldTestIndices n 10).flatten = List.range n := by
  unfold kfoldTestIndices
  rw [makeFolds_flatten, sum_foldSizes n 10 (by norm_num), List.range_eq_range']

/-! ## Claim theorems: the cross-validation driver -/

/-- C8: the driver shuffles features and labels together by the one
seed-determined permutation, then KFold(10) yields 10 contiguous,
pairwise-disjoint test-index blocks covering every index exactly once;
the whole partition is a function of the seed (deterministic). -/
theorem cv_shuffle_and_kfold_partition (perm : Nat → Nat → List Nat)
    (seed : Nat) (X : List (List ℚ)) (y : List ℚ) (hn : 10 ≤ X.length) :
    (kfoldTestIndices X.length 10).length = 10 ∧
    (∀ f ∈ kfoldTestIndices X.length 10, ∃ s k, f = List.range' s k) ∧
    List.Pairwise (fun f g => ∀ i ∈ f, i ∉ g) (kfoldTestIndices X.length 10) ∧
    (kfoldTestIndices X.length 10).flatten = List.range X.length ∧
    shuffleData perm seed X y =
      ((perm seed X.length).map (fun i => X.getD i []),
       (perm seed X.length).map (fun i => y.getD i 0)) ∧
    (∀ seed2, seed2 = seed → shuffleData perm seed2 X y = shuffleData perm seed X y) := by
  refine ⟨?_, makeFolds_contiguous 0 _, ?_, kfold_flatten_range _, rfl, ?_⟩
  · unfold kfoldTestIndices
    rw [makeFolds_length]
    simp [foldSizes]
  · have hnd : (kfoldTestIndices X.length 10).flatten.Nodup := by
      rw [kfold_flatten_range]
      exact List.nodup_range _
    exact ((List.nodup_flatten.mp hnd).2).imp (fun hd i hi hig => hd hi hig)
  · intro seed2 h
    rw [h]

/-- Witness for C8 at a concrete 10-row dataset and the identity
permutation as the seeded shuffler. -/
theorem cv_shuffle_and_kfold_partition_witness :
    10 ≤ cvX.length ∧
      ((kfoldTestIndices cvX.length 10).length = 10 ∧
       (∀ f ∈ kfoldTestIndices cvX.length 10, ∃ s k, f = List.range' s k) ∧
       List.Pairwise (fun f g => ∀ i ∈ f, i ∉ g) (kfoldTestIndices cvX.length 10) ∧
       (kfoldTestIndices cvX.length 10).flatten = List.range cvX.length ∧
       shuffleData idPerm 0 cvX cvY =
         ((idPerm 0 cvX.length).map (fun i => cvX.getD i []),
          (idPerm 0 cvX.length).map (fun i => cvY.getD i 0)) ∧
       (∀ seed2, seed2 = 0 → shuffleData idPerm seed2 cvX cvY = shuffleData idPerm 0 cvX cvY)) :=
  ⟨by decide, cv_shuffle_and_kfold_partition idPerm 0 cvX cvY (by decide)⟩

/-! ## Helper lemmas: `read_csv` -/

theorem loadBranch_seed (df : DataFrame) (fIdx lIdx : List Nat) (seed : Nat)
    (scaler : MinMaxScaler) (r : List (List ℚ) × List ℚ × Nat × MinMaxScaler)
    (h : loadBranch df fIdx lIdx seed scaler = some r) : r.2.2.1 = seed := by
  unfold loadBranch at h
  rcases Option.bind_eq_some.mp h with ⟨X, hX, h⟩
  rcases Option.bind_eq_some.mp h with ⟨y, hy, h⟩
  injection h with h'
  rw [← h']

theorem loadBranch_prefit (df : DataFrame) (fIdx lIdx : List Nat) (seed : Nat)
    (st : ScalerState) (r : List (List ℚ) × List ℚ × Nat × MinMaxScaler)
    (h : loadBranch df fIdx lIdx seed ⟨some st⟩ = some r) :
    r.2.2.2 = (⟨some st⟩ : MinMaxScaler) ∧
      ∃ F, r.1 = MinMaxScaler.transform st F := by
  unfold loadBranch at h
  rcases Option.bind_eq_some.mp h with ⟨X, hX, h⟩
  rcases Option.bind_eq_some.mp h with ⟨y, hy, h⟩
  injection h with h'
  rw [← h']
  exact ⟨rfl, X, rfl⟩

/-! ## Claim theorems: `read_csv` and `category_to_int` -/

/-- C1 fails on the code: for the recognized APIM path, the label vector
is the flattening of the four columns 0-3, so a table whose error-rate
filter keeps exactly one row yields a label vector of length 4, not 1
(the branch selects column 23 — the column its own comment calls the
latency column — as `X` and columns 0-3 as `y`). -/
theorem apim_label_length_bug :
    (filterErr apimDf "Error %" 5).map (fun d => d.rows.length) = some 1 ∧
    (read_csv csvEnv "Datasets/APIM_Dataset.csv" ⟨none⟩).map
        (fun r => r.2.1.length) = some 4 :=
  ⟨by decide, by decide⟩

/-- C2 counterexample: APIM and Springboot are distinct recognized paths
whose fixed seeds coincide (both 42), so the seeds are not pairwise
distinct. -/
theorem seeds_not_distinct_cex :
    ("Datasets/APIM_Dataset.csv" : String) ≠ "Datasets/Springboot_Dataset.csv" ∧
    (read_csv csvEnv "Datasets/APIM_Dataset.csv" ⟨none⟩).map
        (fun r => r.2.2.1) = some 42 ∧
    (read_csv csvEnv "Datasets/Springboot_Dataset.csv" ⟨none⟩).map
        (fun r => r.2.2.1) = some 42 :=
  ⟨by decide, by decide, by decide⟩

/-- C2 (amended): the fixed seeds are 42 for APIM, 65 for Ballerina and
42 for Springboot — the Ballerina seed differs from the other two, but
APIM and Springboot share theirs. -/
theorem read_csv_seed_values (csvData : String → DataFrame) (scaler : MinMaxScaler) :
    (∀ r, read_csv csvData "Datasets/APIM_Dataset.csv" scaler = some r →
      r.2.2.1 = 42) ∧
    (∀ r, read_csv csvData "Datasets/Ballerina_Dataset.csv" scaler = some r →
      r.2.2.1 = 65) ∧
    (∀ r, read_csv csvData "Datasets/Springboot_Dataset.csv" scaler = some r →
      r.2.2.1 = 42) := by
  refine ⟨?_, ?_, ?_⟩
  · intro r h
    simp only [read_csv, if_pos rfl] at h
    rcases Option.bind_eq_some.mp h with ⟨d1, hd1, h⟩
    rcases Option.bind_eq_some.mp h with ⟨d2, hd2, h⟩
    exact loadBranch_seed _ _ _ _ _ _ h
  · intro r h
    simp only [read_csv] at h
    rw [if_pos trivial] at h
    rcases Option.bind_eq_some.mp h with ⟨d1, hd1, h⟩
    rcases Option.bind_eq_some.mp h with ⟨d2, hd2, h⟩
    exact loadBranch_seed _ _ _ _ _ _ h
  · intro r h
    simp only [read_csv] at h
    rw [if_pos trivial] at h
    rcases Option.bind_eq_some.mp h with ⟨d1, hd1, h⟩
    rcases Option.bind_eq_some.mp h with ⟨d2, hd2, h⟩
    rcases Option.bind_eq_some.mp h with ⟨d3, hd3, h⟩
    rcases Option.bind_eq_some.mp h with ⟨d4, hd4, h⟩
    exact loadBranch_seed _ _ _ _ _ _ h

/-- Witness for the amended C2: on the three concrete tables with a fresh
scaler, the returned seeds are 42, 65 and 42. -/
theorem read_csv_seed_values_witness :
    (read_csv csvEnv "Datasets/APIM_Dataset.csv" ⟨none⟩ = some apimTuple ∧
      apimTuple.2.2.1 = 42) ∧
    (read_csv csvEnv "Datasets/Ballerina_Dataset.csv" ⟨none⟩ = some ballTuple ∧
      ballTuple.2.2.1 = 65) ∧
    (read_csv csvEnv "Datasets/Springboot_Dataset.csv" ⟨none⟩ = some springTuple ∧
      springTuple.2.2.1 = 42) :=
  ⟨⟨rfl, (read_csv_seed_values csvEnv ⟨none⟩).1 apimTuple rfl⟩,
   ⟨rfl, (read_csv_seed_values csvEnv ⟨none⟩).2.1 ballTuple rfl⟩,
   ⟨rfl, (read_csv_seed_values csvEnv ⟨none⟩).2.2 springTuple rfl⟩⟩

/-- C9: when the scaler is already fit, `read_csv` on any path leaves the
scaler state unchanged and the returned features are a transform under
that pre-existing state. -/
theorem read_csv_prefit_scaler (csvData : String → DataFrame) (path : String)
    (st : ScalerState) (r : List (List ℚ) × List ℚ × Nat × MinMaxScaler)
    (h : read_csv csvData path ⟨some st⟩ = some r) :
    r.2.2.2 = (⟨some st⟩ : MinMaxScaler) ∧
      ∃ F, r.1 = MinMaxScaler.transform st F := by
  simp only [read_csv] at h
  split_ifs at h
  · rcases Option.bind_eq_some.mp h with ⟨d1, hd1, h⟩
    rcases Option.bind_eq_some.mp h with ⟨d2, hd2, h⟩
    exact loadBranch_prefit _ _ _ _ _ _ h
  · rcases Option.bind_eq_some.mp h with ⟨d1, hd1, h⟩
    rcases Option.bind_eq_some.mp h with ⟨d2, hd2, h⟩
    exact loadBranch_prefit _ _ _ _ _ _ h
  · rcases Option.bind_eq_some.mp h with ⟨d1, hd1, h⟩
    rcases Option.bind_eq_some.mp h with ⟨d2, hd2, h⟩
    rcases Option.bind_eq_some.mp h with ⟨d3, hd3, h⟩
    rcases Option.bind_eq_some.mp h with ⟨d4, hd4, h⟩
    exact loadBranch_prefit _ _ _ _ _ _ h

/-- Witness for C9 on the Ballerina table with the pre-fit scaler. -/
theorem read_csv_prefit_scaler_witness :
    read_csv csvEnv "Datasets/Ballerina_Dataset.csv" ⟨some preFitSt⟩ =
        some ballPreTuple ∧
      (ballPreTuple.2.2.2 = (⟨some preFitSt⟩ : MinMaxScaler) ∧
        ∃ F, ballPreTuple.1 = MinMaxScaler.transform preFitSt F) :=
  ⟨rfl, read_csv_prefit_scaler csvEnv "Datasets/Ballerina_Dataset.csv"
    preFitSt ballPreTuple rfl⟩

/-- C10: `category_to_int` updates the frame behind the reference it is
given (replacing the named columns by integer category codes, keeping the
header) and returns that same reference; no other reference changes. -/
theorem category_to_int_in_place (h : Heap) (r : Nat) (columns : List String)
    (d : DataFrame) (hs : categoryToIntFrame (h r) columns = some d) :
    category_to_int h r columns = some (updateHeap h r d, r) ∧
    updateHeap h r d r = d ∧
    (∀ s, s ≠ r → updateHeap h r d s = h s) ∧
    d.header = (h r).header := by
  refine ⟨?_, ?_, ?_, ?_⟩
  · unfold category_to_int
    rw [hs]
    rfl
  · simp [updateHeap]
  · intro s hsne
    simp [updateHeap, hsne]
  · unfold categoryToIntFrame at hs
    rcases Option.bind_eq_some.mp hs with ⟨idxs, hidx, hs2⟩
    injection hs2 with h2
    rw [← h2]

/-- Witness for C10: encoding the `Name` column of the Ballerina table
through a concrete heap. -/
theorem category_to_int_in_place_witness :
    categoryToIntFrame (nameHeap 0) ["Name"] = some ballDfEncoded ∧
      (category_to_int nameHeap 0 ["Name"] =
          some (updateHeap nameHeap 0 ballDfEncoded, 0) ∧
        updateHeap nameHeap 0 ballDfEncoded 0 = ballDfEncoded ∧
        (∀ s, s ≠ 0 → updateHeap nameHeap 0 ballDfEncoded s = nameHeap s) ∧
        ballDfEncoded.header = (nameHeap 0).header) :=
  ⟨by decide, category_to_int_in_place nameHeap 0 ["Name"] ballDfEncoded (by decide)⟩

end BayesianModel
